import Mathlib

/-!
Verification of the chess-api game-state transition and storage contract.

Shallow embedding of `src/chess_logic.py`, `src/main.py` and
`src/api/index.py`. The external python-chess library is modelled as a
structure of abstract functions over FEN strings (a `ChessLib`), exactly
the capabilities consumed by the source: turn query, UCI parsing, legality
test, move application, and the five termination predicates. Effects that
the source obtains from the environment (uuid generation, `datetime.utcnow`)
are passed in as explicit string parameters. Fallible code returns
`Except`/`Option`.
-/

/-- The capabilities of the external chess rules library (python-chess)
consumed by the source, as abstract functions over FEN strings. A parsed
move object (`chess.Move`) is represented by its canonical UCI string. -/
structure ChessLib where
  /-- `chess.Board().fen()`: the standard starting position. -/
  startFen : String
  /-- `chess.Board(fen).turn == chess.WHITE`. -/
  turnIsWhite : String → Bool
  /-- `chess.Move.from_uci(s)`: `some` parsed move, or `none` when the
  string is malformed and the call raises `ValueError`. -/
  fromUci : String → Option String
  /-- `move in chess.Board(fen).legal_moves`. -/
  isLegal : String → String → Bool
  /-- `board.push(move); board.fen()`: the position after the move. -/
  push : String → String → String
  /-- `chess.Board(fen).is_checkmate()`. -/
  is_checkmate : String → Bool
  /-- `chess.Board(fen).is_stalemate()`. -/
  is_stalemate : String → Bool
  /-- `chess.Board(fen).is_insufficient_material()`. -/
  is_insufficient_material : String → Bool
  /-- `chess.Board(fen).is_fivefold_repetition()`. -/
  is_fivefold_repetition : String → Bool
  /-- `chess.Board(fen).is_seventyfive_moves()`. -/
  is_seventyfive_moves : String → Bool

/-- The persisted game document (`game_data : dict` in the source), with
exactly the fields written by `create_game_data` / `validate_and_make_move`. -/
structure GameData where
  id : String
  white : String
  black : String
  fen : String
  moves : List String
  status : String
  created_at : String
  updated_at : String
deriving DecidableEq, Repr

/-- `NewGameRequest` pydantic model (src/chess_logic.py). -/
structure NewGameRequest where
  white : String
  black : String
deriving DecidableEq, Repr

/-- `MoveRequest` pydantic model (src/chess_logic.py). -/
structure MoveRequest where
  player : String
  move : String
deriving DecidableEq, Repr

/-- The distinct `ValueError` messages raised by `validate_and_make_move`
(src/chess_logic.py lines 98, 104/109, 111), which `api/index.py` line 590
forwards verbatim as HTTP 400 details, and which `src/main.py` lines
177/183/187 raises directly as `HTTPException` details. The spec names
them WrongTurn, IllegalMove and MalformedMove respectively. -/
inductive MoveError where
  | notYourTurn
  | invalidMove
  | invalidMoveFormat
deriving DecidableEq, Repr

/-- The user-facing detail string of each failure, exactly the Python
exception messages. -/
def error_detail : MoveError → String
  | .notYourTurn => "Not your turn"
  | .invalidMove => "Invalid move"
  | .invalidMoveFormat => "Invalid move format"

/-- `get_current_player` (src/chess_logic.py lines 55-57): the white
player's name when it is white's turn in `fen`, else the black player's. -/
def get_current_player (lib : ChessLib) (fen white_player black_player : String) :
    String :=
  if lib.turnIsWhite fen then white_player else black_player

/-- `get_game_status` (src/chess_logic.py lines 59-72): checkmate, then
stalemate, then the three draw conditions, else in_progress. -/
def get_game_status (lib : ChessLib) (fen : String) : String :=
  if lib.is_checkmate fen then "checkmate"
  else if lib.is_stalemate fen then "stalemate"
  else if lib.is_insufficient_material fen then "draw"
  else if lib.is_fivefold_repetition fen then "draw"
  else if lib.is_seventyfive_moves fen then "draw"
  else "in_progress"

/-- `create_game_data` (src/chess_logic.py lines 74-89). `game_id` stands
for the generated `uuid.uuid4()` and `current_time` for
`datetime.utcnow().isoformat()`, both obtained from the environment. -/
def create_game_data (lib : ChessLib) (game_id current_time : String)
    (request : NewGameRequest) : GameData :=
  { id := game_id
    white := request.white
    black := request.black
    fen := lib.startFen
    moves := []
    status := "in_progress"
    created_at := current_time
    updated_at := current_time }

/-- `validate_and_make_move` (src/chess_logic.py lines 91-119). `now`
stands for `datetime.utcnow().isoformat()` at the time of the call.
The source checks the requesting player against the side to move of
`game_data["fen"]`, then parses the UCI string (a `ValueError` from
`chess.Move.from_uci` is mapped to "Invalid move format"), then tests
membership in `board.legal_moves` ("Invalid move" when absent), and only
then mutates the four fields fen / moves / status / updated_at. There is
no check of `game_data["status"]` anywhere on this path. -/
def validate_and_make_move (lib : ChessLib) (now : String) (g : GameData)
    (request : MoveRequest) : Except MoveError GameData :=
  let current_player := get_current_player lib g.fen g.white g.black
  if request.player ≠ current_player then
    .error .notYourTurn
  else
    match lib.fromUci request.move with
    | none => .error .invalidMoveFormat
    | some m =>
      if ¬ lib.isLegal g.fen m then
        .error .invalidMove
      else
        let new_fen := lib.push g.fen m
        .ok { g with
                fen := new_fen
                moves := g.moves ++ [request.move]
                status := get_game_status lib new_fen
                updated_at := now }

/-- The records producible by the system: a record created by
`create_game_data` (POST /game/new), or the result of an accepted
`validate_and_make_move` on a producible record (POST /game/.../move). -/
inductive Reachable (lib : ChessLib) : GameData → Prop
  | create (game_id current_time : String) (request : NewGameRequest) :
      Reachable lib (create_game_data lib game_id current_time request)
  | step (g g' : GameData) (now : String) (request : MoveRequest) :
      Reachable lib g →
      validate_and_make_move lib now g request = .ok g' →
      Reachable lib g'

/-- Replaying a list of recorded move strings from a position through the
rules adapter: each string is parsed with `from_uci` and applied with
`push` after the adapter's own defensive legality check (spec section 4.1:
`apply` itself re-validates). `none` when a string fails to parse or a
move is illegal where it occurs. -/
def replay_moves (lib : ChessLib) (fen : String) : List String → Option String
  | [] => some fen
  | mv :: rest =>
    match lib.fromUci mv with
    | none => none
    | some m =>
      if lib.isLegal fen m then replay_moves lib (lib.push fen m) rest
      else none

/-! ## Storage model

`save_game`/`load_game` serialize the game dict with `json.dump`/`json.load`
(src/main.py lines 77-91) or `json.dumps`/`json.loads` into Redis
(src/api/index.py lines 510-525). The JSON layer is modelled by a value
type with exactly the shapes the game document uses (strings, arrays of
strings, one flat object); `json.dumps` followed by `json.loads` on such a
value is the identity, so the persisted payload is modelled as the JSON
value itself. -/

/-- JSON values as produced/consumed for the game document. -/
inductive Json where
  | jstr : String → Json
  | jarr : List Json → Json
  | jobj : List (String × Json) → Json

/-- The JSON object written for a game dict: the eight fields of section 3,
in the insertion order of `create_game_data`. -/
def game_to_json (g : GameData) : Json :=
  .jobj [("id", .jstr g.id), ("white", .jstr g.white), ("black", .jstr g.black),
         ("fen", .jstr g.fen), ("moves", .jarr (g.moves.map .jstr)),
         ("status", .jstr g.status), ("created_at", .jstr g.created_at),
         ("updated_at", .jstr g.updated_at)]

/-- Field access `loaded["key"]` on a parsed JSON object. -/
def json_get (j : Json) (key : String) : Option Json :=
  match j with
  | .jobj fields => fields.lookup key
  | _ => none

/-- A JSON value read back as a Python `str`. -/
def json_as_str : Json → Option String
  | .jstr s => some s
  | _ => none

/-- A JSON value read back as a Python `list[str]`. -/
def json_as_str_list : Json → Option (List String)
  | .jarr xs => xs.mapM json_as_str
  | _ => none

/-- Reading the eight fields of a game document out of a parsed JSON
value, as the route handlers do after `load_game`. -/
def json_to_game (j : Json) : Option GameData := do
  let id ← (json_get j "id").bind json_as_str
  let white ← (json_get j "white").bind json_as_str
  let black ← (json_get j "black").bind json_as_str
  let fen ← (json_get j "fen").bind json_as_str
  let moves ← (json_get j "moves").bind json_as_str_list
  let status ← (json_get j "status").bind json_as_str
  let created_at ← (json_get j "created_at").bind json_as_str
  let updated_at ← (json_get j "updated_at").bind json_as_str
  pure { id, white, black, fen, moves, status, created_at, updated_at }

/-- Filesystem backend state: the games directory as a map from file name
to (parsed) file contents. -/
def FsStore := String → Option Json

/-- `save_game` (src/main.py lines 77-82): write the serialized dict to
the file named `id + ".json"` in the games directory. -/
def save_game_fs (st : FsStore) (g : GameData) : FsStore :=
  fun name =>
    if name = g.id ++ ".json" then some (game_to_json g) else st name

/-- `load_game` (src/main.py lines 84-91): `none` when the file does not
exist, else the parsed record. -/
def load_game_fs (st : FsStore) (game_id : String) : Option GameData :=
  (st (game_id ++ ".json")).bind json_to_game

/-- Remote key-value backend state (Upstash Redis): the string keyspace
plus the `games:all` set, modelled as a list of ids without duplicates. -/
structure RedisStore where
  kv : String → Option Json
  games_all : List String

/-- `save_game` (src/api/index.py lines 510-516): `redis.set` of the
serialized dict under `game:` + id, then `redis.sadd` of the id into
`games:all` (idempotent set insertion). -/
def save_game_redis (st : RedisStore) (g : GameData) : RedisStore :=
  { kv := fun key =>
      if key = "game:" ++ g.id then some (game_to_json g) else st.kv key
    games_all :=
      if g.id ∈ st.games_all then st.games_all else g.id :: st.games_all }

/-- `load_game` (src/api/index.py lines 518-525): `none` when `redis.get`
returns nothing, else the parsed record. -/
def load_game_redis (st : RedisStore) (game_id : String) : Option GameData :=
  (st.kv ("game:" ++ game_id)).bind json_to_game

/-! ## Concrete rules-adapter instances

The python-chess library is external to the repository, so (as in the
repository's own test suite, which mocks the storage boundary) closed
evaluations use small concrete instances of the `ChessLib` contract. -/

/-- A two-position rules engine: positions are abbreviated to the side to
move, `"w"` / `"b"`; every 4- or 5-character string parses as UCI;
`"e2e5"` is a well-formed but never-legal move (the spec's Scenario 4);
every applied move hands the turn to the other side; no position is
terminal. -/
def testLib : ChessLib where
  startFen := "w"
  turnIsWhite := fun fen => fen == "w"
  fromUci := fun s => if s.length = 4 ∨ s.length = 5 then some s else none
  isLegal := fun fen m => (fen == "w" || fen == "b") && m != "e2e5"
  push := fun fen _ => if fen == "w" then "b" else "w"
  is_checkmate := fun _ => false
  is_stalemate := fun _ => false
  is_insufficient_material := fun _ => false
  is_fivefold_repetition := fun _ => false
  is_seventyfive_moves := fun _ => false

/-- An instance exercising `get_game_status`: position `"cm"` is
simultaneously checkmate and a fivefold-repetition draw, position `"sf"`
satisfies only the seventy-five-move rule. -/
def statusLib : ChessLib where
  startFen := "w"
  turnIsWhite := fun _ => true
  fromUci := fun _ => none
  isLegal := fun _ _ => false
  push := fun fen _ => fen
  is_checkmate := fun fen => fen == "cm"
  is_stalemate := fun _ => false
  is_insufficient_material := fun _ => false
  is_fivefold_repetition := fun fen => fen == "cm"
  is_seventyfive_moves := fun fen => fen == "sf"

/-- An instance modelling a king-and-knight versus bare-king endgame, as
python-chess reports it: every position is a draw by insufficient
material, yet legal moves still exist in every position. Positions are
again abbreviated to the side to move. -/
def drawLib : ChessLib where
  startFen := "w"
  turnIsWhite := fun fen => fen == "w"
  fromUci := fun s => if s.length = 4 ∨ s.length = 5 then some s else none
  isLegal := fun _ _ => true
  push := fun fen _ => if fen == "w" then "b" else "w"
  is_checkmate := fun _ => false
  is_stalemate := fun _ => false
  is_insufficient_material := fun _ => true
  is_fivefold_repetition := fun _ => false
  is_seventyfive_moves := fun _ => false

/-- A record as the system would hold it after a game has been declared a
draw by insufficient material: `status` is `"draw"` (terminal), the
position still has legal moves, four half-moves recorded, white to move. -/
def drawnRecord : GameData :=
  { id := "g-draw"
    white := "A"
    black := "B"
    fen := "w"
    moves := ["h1g3", "b2a2", "g3h1", "a2b2"]
    status := "draw"
    created_at := "2023-01-01T00:00:00"
    updated_at := "2023-01-01T00:05:00" }

/-! ## Helper lemmas -/

/-- In `testLib` the starting position has white to move. -/
lemma testLib_start_white : testLib.turnIsWhite testLib.startFen = true := rfl

/-- In `testLib` every legally applied move flips the side to move, as in
any chess library. -/
lemma testLib_push_flips (fen m : String) (h : testLib.isLegal fen m = true) :
    testLib.turnIsWhite (testLib.push fen m) = ! testLib.turnIsWhite fen := by
  simp only [testLib, Bool.and_eq_true, Bool.or_eq_true, beq_iff_eq] at h ⊢
  rcases h with ⟨hf | hf, -⟩ <;> simp [hf]

/-- Inversion of a successful `validate_and_make_move`: success implies
the requesting player was the side to move, the move string parsed, the
parsed move was legal, and the result is the input record with exactly
the four fields fen / moves / status / updated_at rewritten. -/
lemma validate_ok_inversion {lib : ChessLib} {now : String} {g g' : GameData}
    {request : MoveRequest}
    (h : validate_and_make_move lib now g request = .ok g') :
    request.player = get_current_player lib g.fen g.white g.black ∧
    ∃ m, lib.fromUci request.move = some m ∧ lib.isLegal g.fen m = true ∧
      g' = { g with
               fen := lib.push g.fen m
               moves := g.moves ++ [request.move]
               status := get_game_status lib (lib.push g.fen m)
               updated_at := now } := by
  simp only [validate_and_make_move] at h
  split at h
  · exact absurd h (by simp)
  · rename_i hne
    push_neg at hne
    refine ⟨hne, ?_⟩
    split at h
    · exact absurd h (by simp)
    · rename_i m hm
      split at h
      · exact absurd h (by simp)
      · rename_i hlegal
        rw [not_not] at hlegal
        exact ⟨m, hm, hlegal, (Except.ok.injEq _ _ ▸ h).symm⟩

/-- Reading a JSON string array of move strings back yields the list. -/
lemma json_as_str_list_map (ms : List String) :
    json_as_str_list (.jarr (ms.map Json.jstr)) = some ms := by
  induction ms with
  | nil => rfl
  | cons a t ih =>
    simp only [json_as_str_list] at ih ⊢
    rw [List.map_cons, List.mapM_cons]
    simp only [List.mapM] at ih
    simp [ih, json_as_str]

/-- Parsing the serialized game document recovers every field. -/
lemma json_to_game_roundtrip (g : GameData) :
    json_to_game (game_to_json g) = some g := by
  simp [json_to_game, game_to_json, json_get, List.lookup, json_as_str,
        json_as_str_list_map]

/-- On every reachable record the side to move of `fen` agrees with the
parity of the move count, provided the adapter starts with white to move
and alternates the side on every applied move (as python-chess does). -/
lemma reachable_parity {lib : ChessLib}
    (hstart : lib.turnIsWhite lib.startFen = true)
    (hflip : ∀ fen m, lib.isLegal fen m = true →
      lib.turnIsWhite (lib.push fen m) = ! lib.turnIsWhite fen)
    {g : GameData} (hg : Reachable lib g) :
    lib.turnIsWhite g.fen = decide (g.moves.length % 2 = 0) := by
  induction hg with
  | create game_id current_time request => simp [create_game_data, hstart]
  | step g g' now request hr hok ih =>
    obtain ⟨-, m, hm, hlegal, rfl⟩ := validate_ok_inversion hok
    dsimp only
    rw [hflip _ _ hlegal, ih]
    have hlen : (g.moves ++ [request.move]).length = g.moves.length + 1 := by
      simp
    rw [hlen]
    rcases Nat.even_or_odd g.moves.length with he | ho
    · have h0 : g.moves.length % 2 = 0 := Nat.even_iff.mp he
      have h1 : (g.moves.length + 1) % 2 = 1 := by omega
      simp [h0, h1]
    · have h0 : g.moves.length % 2 = 1 := Nat.odd_iff.mp ho
      have h1 : (g.moves.length + 1) % 2 = 0 := by omega
      simp [h0, h1]

/-- Appending one recorded move to a replay applies it at the end. -/
lemma replay_moves_append (lib : ChessLib) (fen : String) (ms : List String)
    (mv m : String) (hm : lib.fromUci mv = some m) :
    replay_moves lib fen (ms ++ [mv]) =
      (replay_moves lib fen ms).bind (fun f =>
        if lib.isLegal f m then some (lib.push f m) else none) := by
  induction ms generalizing fen with
  | nil => simp [replay_moves, hm]
  | cons a t ih =>
    simp only [List.cons_append, replay_moves]
    cases lib.fromUci a with
    | none => rfl
    | some b =>
      by_cases hl : lib.isLegal fen b <;> simp [hl, ih]

/-! ## Claim theorems -/

/-- C1 (code evaluated at the failing input): the source has no status
check and no GameOver failure at all. On a record already terminal
(`status = "draw"`, here a draw by insufficient material, where the
position still has legal moves) `validate_and_make_move` ACCEPTS a further
move from the side to move, appends it, and refreshes `updated_at` —
instead of failing and leaving the record unchanged as the claim states. -/
theorem terminal_draw_record_accepts_move :
    validate_and_make_move drawLib "2023-01-01T00:06:00" drawnRecord
        ⟨"A", "h1g3"⟩ =
      .ok { drawnRecord with
              fen := "b"
              moves := drawnRecord.moves ++ ["h1g3"]
              status := "draw"
              updated_at := "2023-01-01T00:06:00" } := by
  rfl

/-- C2: on an in-progress record, when the requesting player is the side
to move and the move string parses and is legal in the record's position,
the transition succeeds and the result is the input record with `fen` set
to the adapter's application of the move, the move string appended to
`moves`, `status` recomputed from the new fen, and `updated_at` refreshed. -/
theorem move_success_updates_record (lib : ChessLib) (now : String)
    (g : GameData) (request : MoveRequest) (m : String)
    (hstat : g.status = "in_progress")
    (hturn : request.player = get_current_player lib g.fen g.white g.black)
    (hparse : lib.fromUci request.move = some m)
    (hlegal : lib.isLegal g.fen m = true) :
    validate_and_make_move lib now g request =
      .ok { g with
              fen := lib.push g.fen m
              moves := g.moves ++ [request.move]
              status := get_game_status lib (lib.push g.fen m)
              updated_at := now } := by
  simp [validate_and_make_move, hturn, hparse, hlegal]

/-- Witness for C2: Scenario 2 — from a fresh game, `e2e4` submitted by
the white player `A` succeeds, `moves` becomes `["e2e4"]`, the turn passes
to black, and the game stays in progress. -/
theorem move_success_updates_record_witness :
    validate_and_make_move testLib "T1"
        (create_game_data testLib "g-1" "T0" ⟨"A", "B"⟩) ⟨"A", "e2e4"⟩ =
      .ok { id := "g-1", white := "A", black := "B", fen := "b",
            moves := ["e2e4"], status := "in_progress",
            created_at := "T0", updated_at := "T1" } := by
  exact move_success_updates_record testLib "T1"
    (create_game_data testLib "g-1" "T0" ⟨"A", "B"⟩) ⟨"A", "e2e4"⟩ "e2e4"
    rfl rfl rfl rfl

/-- C3: on an in-progress record whose fen-derived turn agrees with the
move-count parity (as on every reachable record), a request from any
player other than the expected one (white on even parity, black on odd)
fails with the "Not your turn" error (the spec's WrongTurn); no record is
produced, so nothing is mutated or persisted. -/
theorem wrong_turn_rejected (lib : ChessLib) (now : String) (g : GameData)
    (request : MoveRequest)
    (hstat : g.status = "in_progress")
    (hparity : lib.turnIsWhite g.fen = decide (g.moves.length % 2 = 0))
    (hplayer : request.player ≠
      (if g.moves.length % 2 = 0 then g.white else g.black)) :
    validate_and_make_move lib now g request = .error .notYourTurn := by
  have hcur : get_current_player lib g.fen g.white g.black =
      (if g.moves.length % 2 = 0 then g.white else g.black) := by
    rw [get_current_player, hparity]
    by_cases he : g.moves.length % 2 = 0 <;> simp [he]
  simp only [validate_and_make_move, hcur]
  rw [if_pos hplayer]

/-- Witness for C3: Scenario 3 — on a fresh game (even move count, white
to move) a move submitted by the black player `B` fails with the
"Not your turn" error. -/
theorem wrong_turn_rejected_witness :
    validate_and_make_move testLib "T1"
        (create_game_data testLib "g-1" "T0" ⟨"A", "B"⟩) ⟨"B", "e7e5"⟩ =
      .error .notYourTurn := by
  exact wrong_turn_rejected testLib "T1"
    (create_game_data testLib "g-1" "T0" ⟨"A", "B"⟩) ⟨"B", "e7e5"⟩
    rfl rfl (by decide)

/-- C4: on an in-progress record with the correct requesting player, a
move string that fails UCI parsing is rejected with "Invalid move format"
(the spec's MalformedMove) while a well-formed move that is not legal in
the current position is rejected with "Invalid move" (the spec's
IllegalMove); the two failures are distinct values with distinct
user-facing detail strings, and neither produces a record. -/
theorem malformed_vs_illegal_distinct (lib : ChessLib) (now : String)
    (g : GameData) (request : MoveRequest)
    (hstat : g.status = "in_progress")
    (hturn : request.player = get_current_player lib g.fen g.white g.black) :
    (lib.fromUci request.move = none →
      validate_and_make_move lib now g request = .error .invalidMoveFormat) ∧
    (∀ m, lib.fromUci request.move = some m → lib.isLegal g.fen m = false →
      validate_and_make_move lib now g request = .error .invalidMove) ∧
    MoveError.invalidMoveFormat ≠ MoveError.invalidMove ∧
    error_detail .invalidMoveFormat ≠ error_detail .invalidMove := by
  refine ⟨?_, ?_, by decide, by decide⟩
  · intro hnone
    simp [validate_and_make_move, hturn, hnone]
  · intro m hm hlegal
    simp [validate_and_make_move, hturn, hm, hlegal]

/-- Witness for C4: from a fresh game, the 2-character string `e9` fails
as "Invalid move format" while the well-formed but illegal pawn move
`e2e5` (Scenario 4) fails as "Invalid move". -/
theorem malformed_vs_illegal_distinct_witness :
    validate_and_make_move testLib "T1"
        (create_game_data testLib "g-1" "T0" ⟨"A", "B"⟩) ⟨"A", "e9"⟩ =
      .error .invalidMoveFormat ∧
    validate_and_make_move testLib "T1"
        (create_game_data testLib "g-1" "T0" ⟨"A", "B"⟩) ⟨"A", "e2e5"⟩ =
      .error .invalidMove :=
  ⟨(malformed_vs_illegal_distinct testLib "T1"
      (create_game_data testLib "g-1" "T0" ⟨"A", "B"⟩) ⟨"A", "e9"⟩
      rfl rfl).1 rfl,
   (malformed_vs_illegal_distinct testLib "T1"
      (create_game_data testLib "g-1" "T0" ⟨"A", "B"⟩) ⟨"A", "e2e5"⟩
      rfl rfl).2.1 "e2e5" rfl rfl⟩

/-- C5: on every record reachable by creation and accepted moves, the
move-count parity and the side to move encoded in `fen` agree — the count
is even exactly when white is to move, and (for distinct player names)
exactly when the fen-derived current player is the white player. Holds
for any adapter in which the start position has white to move and every
applied move alternates the side, as python-chess guarantees. -/
theorem parity_matches_fen_turn (lib : ChessLib)
    (hstart : lib.turnIsWhite lib.startFen = true)
    (hflip : ∀ fen m, lib.isLegal fen m = true →
      lib.turnIsWhite (lib.push fen m) = ! lib.turnIsWhite fen)
    (g : GameData) (hg : Reachable lib g) :
    (g.moves.length % 2 = 0 ↔ lib.turnIsWhite g.fen = true) ∧
    (g.white ≠ g.black →
      (g.moves.length % 2 = 0 ↔
        get_current_player lib g.fen g.white g.black = g.white)) := by
  have h := reachable_parity hstart hflip hg
  constructor
  · rw [h]
    simp
  · intro hww
    rw [get_current_player, h]
    by_cases he : g.moves.length % 2 = 0
    · simp [he]
    · simp [he]
      exact fun hc => hww hc.symm

/-- Witness for C5: a freshly created game has zero recorded moves and
white to move, and its fen-derived current player is the white player. -/
theorem parity_matches_fen_turn_witness :
    ((create_game_data testLib "g-1" "T0" ⟨"A", "B"⟩).moves.length % 2 = 0 ↔
      testLib.turnIsWhite (create_game_data testLib "g-1" "T0" ⟨"A", "B"⟩).fen
        = true) ∧
    ((create_game_data testLib "g-1" "T0" ⟨"A", "B"⟩).white ≠
        (create_game_data testLib "g-1" "T0" ⟨"A", "B"⟩).black →
      ((create_game_data testLib "g-1" "T0" ⟨"A", "B"⟩).moves.length % 2 = 0 ↔
        get_current_player testLib
          (create_game_data testLib "g-1" "T0" ⟨"A", "B"⟩).fen
          (create_game_data testLib "g-1" "T0" ⟨"A", "B"⟩).white
          (create_game_data testLib "g-1" "T0" ⟨"A", "B"⟩).black =
          (create_game_data testLib "g-1" "T0" ⟨"A", "B"⟩).white)) :=
  parity_matches_fen_turn testLib testLib_start_white testLib_push_flips
    (create_game_data testLib "g-1" "T0" ⟨"A", "B"⟩)
    (Reachable.create "g-1" "T0" ⟨"A", "B"⟩)

/-- C6: on every record reachable by creation and accepted moves, `fen`
is exactly the position obtained by replaying the recorded `moves` in
order from the adapter's standard starting position — `moves` is the
source of truth and `fen` a derived cache that never diverges from it. -/
theorem fen_replay_of_moves (lib : ChessLib) (g : GameData)
    (hg : Reachable lib g) :
    replay_moves lib lib.startFen g.moves = some g.fen := by
  induction hg with
  | create game_id current_time request =>
    simp [create_game_data, replay_moves]
  | step g g' now request hr hok ih =>
    obtain ⟨-, m, hm, hlegal, rfl⟩ := validate_ok_inversion hok
    dsimp only
    rw [replay_moves_append lib _ _ _ _ hm, ih]
    simp [hlegal]

/-- Witness for C6: after the accepted move `e2e4` on a fresh game, the
stored fen is reproduced by replaying `["e2e4"]` from the start position. -/
theorem fen_replay_of_moves_witness :
    replay_moves testLib testLib.startFen ["e2e4"] = some "b" := by
  exact fen_replay_of_moves testLib
    { id := "g-1", white := "A", black := "B", fen := "b", moves := ["e2e4"],
      status := "in_progress", created_at := "T0", updated_at := "T1" }
    (Reachable.step _ _ "T1" ⟨"A", "e2e4"⟩
      (Reachable.create "g-1" "T0" ⟨"A", "B"⟩) rfl)

/-- C7: writing a record with `save_game` and reading it back with
`load_game` under its id reproduces every field, on the filesystem
backend (src/main.py) and on the Redis backend (src/api/index.py) alike. -/
theorem store_roundtrip (st_fs : FsStore) (st_r : RedisStore) (g : GameData) :
    load_game_fs (save_game_fs st_fs g) g.id = some g ∧
    load_game_redis (save_game_redis st_r g) g.id = some g := by
  constructor
  · simp [load_game_fs, save_game_fs, json_to_game_roundtrip]
  · simp [load_game_redis, save_game_redis, json_to_game_roundtrip]

/-- C8: a record created for white `A` versus black `B` carries those
names, an empty move list, status in_progress, the adapter's standard
starting fen, and (white having the first move in the start position) a
fen-derived current player equal to `A`, the value `create_new_game`
returns as `current_player`. -/
theorem new_game_initial_state (lib : ChessLib)
    (hstart : lib.turnIsWhite lib.startFen = true)
    (game_id current_time : String) :
    (create_game_data lib game_id current_time ⟨"A", "B"⟩).white = "A" ∧
    (create_game_data lib game_id current_time ⟨"A", "B"⟩).black = "B" ∧
    (create_game_data lib game_id current_time ⟨"A", "B"⟩).moves = [] ∧
    (create_game_data lib game_id current_time ⟨"A", "B"⟩).status =
      "in_progress" ∧
    (create_game_data lib game_id current_time ⟨"A", "B"⟩).fen =
      lib.startFen ∧
    get_current_player lib
      (create_game_data lib game_id current_time ⟨"A", "B"⟩).fen "A" "B" =
      "A" := by
  refine ⟨rfl, rfl, rfl, rfl, rfl, ?_⟩
  simp [create_game_data, get_current_player, hstart]

/-- Witness for C8: Scenario 1 on the concrete adapter instance. -/
theorem new_game_initial_state_witness :
    (create_game_data testLib "g-1" "T0" ⟨"A", "B"⟩).white = "A" ∧
    (create_game_data testLib "g-1" "T0" ⟨"A", "B"⟩).black = "B" ∧
    (create_game_data testLib "g-1" "T0" ⟨"A", "B"⟩).moves = [] ∧
    (create_game_data testLib "g-1" "T0" ⟨"A", "B"⟩).status = "in_progress" ∧
    (create_game_data testLib "g-1" "T0" ⟨"A", "B"⟩).fen = testLib.startFen ∧
    get_current_player testLib
      (create_game_data testLib "g-1" "T0" ⟨"A", "B"⟩).fen "A" "B" = "A" :=
  new_game_initial_state testLib rfl "g-1" "T0"

/-- C9: an accepted move never changes the identity fields — the result
of a successful `validate_and_make_move` keeps the input record's `id`,
`white`, `black` and `created_at` unchanged. -/
theorem accepted_move_frame (lib : ChessLib) (now : String)
    (g g' : GameData) (request : MoveRequest)
    (h : validate_and_make_move lib now g request = .ok g') :
    g'.id = g.id ∧ g'.white = g.white ∧ g'.black = g.black ∧
      g'.created_at = g.created_at := by
  obtain ⟨-, m, -, -, rfl⟩ := validate_ok_inversion h
  exact ⟨rfl, rfl, rfl, rfl⟩

/-- Witness for C9: the accepted `e2e4` on a fresh game keeps id, players
and creation time. -/
theorem accepted_move_frame_witness :
    let g := create_game_data testLib "g-1" "T0" ⟨"A", "B"⟩
    let g' : GameData :=
      { id := "g-1", white := "A", black := "B", fen := "b",
        moves := ["e2e4"], status := "in_progress",
        created_at := "T0", updated_at := "T1" }
    g'.id = g.id ∧ g'.white = g.white ∧ g'.black = g.black ∧
      g'.created_at = g.created_at :=
  accepted_move_frame testLib "T1"
    (create_game_data testLib "g-1" "T0" ⟨"A", "B"⟩) _ ⟨"A", "e2e4"⟩ rfl

/-- C10: `get_game_status` tests the five terminal conditions in the
fixed order checkmate, stalemate, insufficient material, fivefold
repetition, seventy-five-move rule: a checkmated position is reported
"checkmate" regardless of any simultaneously holding draw condition, a
non-checkmate stalemate is "stalemate", any of the three draw conditions
otherwise gives "draw", and "in_progress" is returned exactly when none
of the five conditions holds. -/
theorem status_precedence (lib : ChessLib) (fen : String) :
    (lib.is_checkmate fen = true → get_game_status lib fen = "checkmate") ∧
    (lib.is_checkmate fen = false → lib.is_stalemate fen = true →
      get_game_status lib fen = "stalemate") ∧
    (lib.is_checkmate fen = false → lib.is_stalemate fen = false →
      (lib.is_insufficient_material fen = true ∨
       lib.is_fivefold_repetition fen = true ∨
       lib.is_seventyfive_moves fen = true) →
      get_game_status lib fen = "draw") ∧
    (get_game_status lib fen = "in_progress" ↔
      lib.is_checkmate fen = false ∧ lib.is_stalemate fen = false ∧
      lib.is_insufficient_material fen = false ∧
      lib.is_fivefold_repetition fen = false ∧
      lib.is_seventyfive_moves fen = false) := by
  unfold get_game_status
  split_ifs with h1 h2 h3 h4 h5 <;> simp_all

/-- Witness for C10: in `statusLib`, position `cm` is simultaneously
checkmate and a fivefold-repetition draw yet is reported "checkmate",
and position `w`, satisfying none of the five conditions, is reported
"in_progress". -/
theorem status_precedence_witness :
    statusLib.is_checkmate "cm" = true ∧
    statusLib.is_fivefold_repetition "cm" = true ∧
    get_game_status statusLib "cm" = "checkmate" ∧
    get_game_status statusLib "w" = "in_progress" :=
  ⟨rfl, rfl, (status_precedence statusLib "cm").1 rfl,
    (status_precedence statusLib "w").2.2.2.mpr (by decide)⟩
